import Mathlib

/-!
Verification of the Smart Parking repository (`app/` package) against its
natural-language specification.

Shallow embedding conventions:
* SQLAlchemy rows become Lean structures; the database session becomes an
  explicit `DB` value threaded through the operations.
* Python `datetime` values are modelled as integer Unix seconds (`ℤ`);
  `timedelta.total_seconds() / 60` becomes exact rational arithmetic over `ℚ`
  (Python floats are modelled as exact rationals).
* Async barrier actuation is modelled by a trace of issued commands plus
  explicit `Bool` parameters for the success results the hardware returns;
  the handlers ignore those results, exactly as the Python code ignores the
  return values of `open_entry_barrier`/`close_entry_barrier`.
* `try/except` blocks that swallow every exception are modelled by total
  functions returning the state committed before the failure point.
-/

namespace SmartParking

/-- Row of `vehicle_entries` (`app/models.py`, class `VehicleEntry`).
`created_at`/`updated_at` audit columns are omitted: nothing in the code or
claims reads them.  `entry_time` has SQL server default `now()` and is never
written as NULL by any code path, so it is modelled as a plain timestamp. -/
structure VehicleEntry where
  id : ℕ
  parking_spot : Option ℤ
  plate_number : String
  entry_time : ℤ
  exit_time : Option ℤ
  entry_image : Option String
  exit_image : Option String
  parking_fee : ℚ
  paid : Bool
  payment_qr : Option String
deriving DecidableEq

/-- Row of `parking_settings` (`app/models.py`, class `ParkingSettings`).
Every creation path supplies or defaults all three pricing columns
(SQLAlchemy column defaults 50.0 / 30.0 / 15 fire for unset attributes),
so the fields are modelled as always present. -/
structure ParkingSettings where
  base_price_per_hour : ℚ
  additional_price_per_hour : ℚ
  free_minutes : ℤ
deriving DecidableEq

/-- Pydantic schema `VehicleEntryCreate` (`app/schemas.py`). -/
structure VehicleEntryCreate where
  plate_number : String
  entry_image : Option String
  parking_spot : Option ℤ
deriving DecidableEq

/-- Pydantic schema `VehicleEntryUpdate` (`app/schemas.py`); `none` means the
field was not provided, matching `dict(exclude_unset=True)` in
`crud.update_vehicle_entry`. -/
structure VehicleEntryUpdate where
  exit_time : Option ℤ
  exit_image : Option String
  parking_fee : Option ℚ
  paid : Option Bool
deriving DecidableEq

/-- Pydantic schema `ParkingSettingsUpdate` (`app/schemas.py`); `none` means
the field was not provided. -/
structure ParkingSettingsUpdate where
  base_price_per_hour : Option ℚ
  additional_price_per_hour : Option ℚ
  free_minutes : Option ℤ
deriving DecidableEq

/-- The persistent state: the `vehicle_entries` table in insertion order, the
singleton `parking_settings` row (`crud` always reads `.first()`), and the
autoincrement counter for the `VehicleEntry.id` primary key. -/
structure DB where
  entries : List VehicleEntry
  settings : Option ParkingSettings
  next_id : ℕ
deriving DecidableEq

/-! ## app/payment_service.py -/

/-- `PaymentService.calculate_parking_fee` (`app/payment_service.py` lines
10-31).  `not entry_time` on a `datetime` is a `None` check (datetimes are
never falsy), `parking_duration` keeps fractional minutes, `//` on floats is
mathematical floor, and `int` of its non-negative result is the same floor. -/
def calculate_parking_fee (entry_time exit_time : Option ℤ)
    (parking_settings : ParkingSettings) : ℚ :=
  match entry_time, exit_time with
  | some et, some xt =>
    let parking_duration : ℚ := ((xt - et : ℤ) : ℚ) / 60
    if parking_duration ≤ (parking_settings.free_minutes : ℚ) then 0
    else
      let chargeable_hours : ℤ :=
        max 1 ⌊(parking_duration - (parking_settings.free_minutes : ℚ) + 59) / 60⌋
      if chargeable_hours = 1 then parking_settings.base_price_per_hour
      else parking_settings.base_price_per_hour +
        ((chargeable_hours : ℚ) - 1) * parking_settings.additional_price_per_hour
  | _, _ => 0

/-- `PaymentService.generate_qr_code` (`app/payment_service.py` lines 33-64),
modelled by the `qr_data` payload string PAY:id:amount:plate; the PNG/base64
rendering of that payload is an external pure renderer per the spec and
carries no further information. -/
def generate_qr_code (vehicle_entry : VehicleEntry) (amount : ℚ) : String :=
  "PAY:" ++ toString vehicle_entry.id ++ ":" ++ toString amount ++ ":" ++
    vehicle_entry.plate_number

/-- `PaymentService.verify_payment` (`app/payment_service.py` lines 66-70):
the in-repo stub accepts every claim. -/
def verify_payment (_payment_data : String) : Bool :=
  true

/-! ## app/crud.py -/

/-- `crud.create_vehicle_entry` (`app/crud.py` lines 8-13): insert a fresh row
built from the schema; `entry_time` is filled by the `server_default now()`
of the column, i.e. the current instant `now`, `parking_fee`/`paid` take the
column defaults, and the primary key is the next autoincrement value. -/
def create_vehicle_entry (db : DB) (entry : VehicleEntryCreate) (now : ℤ) :
    DB × VehicleEntry :=
  let db_entry : VehicleEntry :=
    { id := db.next_id
      parking_spot := entry.parking_spot
      plate_number := entry.plate_number
      entry_time := now
      exit_time := none
      entry_image := entry.entry_image
      exit_image := none
      parking_fee := 0
      paid := false
      payment_qr := none }
  ({ db with entries := db.entries ++ [db_entry], next_id := db.next_id + 1 },
    db_entry)

/-- `crud.get_vehicle_entry` (`app/crud.py` lines 15-16): first row with the
given primary key. -/
def get_vehicle_entry (db : DB) (entry_id : ℕ) : Option VehicleEntry :=
  db.entries.find? fun e => e.id == entry_id

/-- Combiner realising `order_by(desc(entry_time)).first()`: keep the row
with the largest `entry_time` (SQL leaves the order of ties unspecified; the
model keeps the earliest-inserted one). -/
def pick_latest (acc : Option VehicleEntry) (e : VehicleEntry) :
    Option VehicleEntry :=
  match acc with
  | none => some e
  | some a => if a.entry_time < e.entry_time then some e else some a

/-- `crud.get_vehicle_entry_by_plate` (`app/crud.py` lines 18-25): rows for
the plate, optionally restricted to open ones (`exit_time IS NULL`), ordered
by `entry_time` descending, first row or `None`. -/
def get_vehicle_entry_by_plate (db : DB) (plate_number : String)
    (exclude_exited : Bool) : Option VehicleEntry :=
  let rows := db.entries.filter fun e =>
    e.plate_number == plate_number && (!exclude_exited || e.exit_time.isNone)
  rows.foldl pick_latest none

/-- The `setattr` loop of `crud.update_vehicle_entry` over
`dict(exclude_unset=True)`: only the provided fields overwrite the row. -/
def apply_entry_update (u : VehicleEntryUpdate) (e : VehicleEntry) :
    VehicleEntry :=
  { e with
    exit_time := match u.exit_time with
      | some t => some t
      | none => e.exit_time
    exit_image := match u.exit_image with
      | some s => some s
      | none => e.exit_image
    parking_fee := u.parking_fee.getD e.parking_fee
    paid := u.paid.getD e.paid }

/-- Replace the first row satisfying `p` by its image under `f` (the
`query.filter(...).first()` / mutate / `commit` pattern of `app/crud.py`). -/
def update_first (p : VehicleEntry → Bool) (f : VehicleEntry → VehicleEntry) :
    List VehicleEntry → List VehicleEntry
  | [] => []
  | e :: es => if p e then f e :: es else e :: update_first p f es

/-- `crud.update_vehicle_entry` (`app/crud.py` lines 32-41): look the row up
by id, apply the provided fields, commit; returns the refreshed row, or
`none` when the id is unknown. -/
def update_vehicle_entry (db : DB) (entry_id : ℕ) (u : VehicleEntryUpdate) :
    DB × Option VehicleEntry :=
  match db.entries.find? (fun e => e.id == entry_id) with
  | none => (db, none)
  | some e =>
    let entries' :=
      update_first (fun x => x.id == entry_id) (apply_entry_update u) db.entries
    ({ db with entries := entries' }, some (apply_entry_update u e))

/-- `crud.mark_as_paid` (`app/crud.py` lines 43-49). -/
def mark_as_paid (db : DB) (entry_id : ℕ) : DB × Option VehicleEntry :=
  match db.entries.find? (fun e => e.id == entry_id) with
  | none => (db, none)
  | some e =>
    let entries' :=
      update_first (fun x => x.id == entry_id) (fun x => { x with paid := true })
        db.entries
    ({ db with entries := entries' }, some { e with paid := true })

/-- `crud.get_parking_settings` (`app/crud.py` lines 52-53). -/
def get_parking_settings (db : DB) : Option ParkingSettings :=
  db.settings

/-- `crud.create_parking_settings` (`app/crud.py` lines 55-60):
`models.ParkingSettings(**settings.dict())` passes every schema field; for a
field the caller never set, the value is `None`, which the SQLAlchemy ORM
treats as "no value supplied", so the column defaults 50.0 / 30.0 / 15 of
`app/models.py` fire at INSERT (persisting NULL instead would require
`evaluates_none()`). -/
def create_parking_settings (db : DB) (settings : ParkingSettingsUpdate) :
    DB × ParkingSettings :=
  let db_settings : ParkingSettings :=
    { base_price_per_hour := settings.base_price_per_hour.getD 50,
      additional_price_per_hour := settings.additional_price_per_hour.getD 30,
      free_minutes := settings.free_minutes.getD 15 }
  ({ db with settings := some db_settings }, db_settings)

/-- `crud.update_parking_settings` (`app/crud.py` lines 62-74): update the
singleton row in place with the provided fields, or create it when absent;
the Python annotation is `Optional[ParkingSettings]`, hence the `Option`
result. -/
def update_parking_settings (db : DB) (settings_update : ParkingSettingsUpdate) :
    DB × Option ParkingSettings :=
  match db.settings with
  | some db_settings =>
    let db_settings' : ParkingSettings :=
      { base_price_per_hour :=
          settings_update.base_price_per_hour.getD db_settings.base_price_per_hour,
        additional_price_per_hour :=
          settings_update.additional_price_per_hour.getD
            db_settings.additional_price_per_hour,
        free_minutes :=
          settings_update.free_minutes.getD db_settings.free_minutes }
    ({ db with settings := some db_settings' }, some db_settings')
  | none =>
    let created := create_parking_settings db settings_update
    (created.1, some created.2)

/-! ## app/main.py — Lifecycle Coordinator -/

/-- Commands the coordinator sends to `BarrierService`
(`app/barrier_service.py`); a run of a handler is modelled together with the
trace of commands it issued. -/
inductive BarrierCmd
  | openEntry
  | closeEntry
  | openExit
  | closeExit
deriving DecidableEq

/-- HTTP outcome of the payment endpoint (`app/main.py` lines 251-275):
`notFound` is the 404 `HTTPException`, `alreadyPaid` the 400 for a paid
entry, `paymentRejected` the 400 for a failed verification. -/
inductive PaymentResult
  | success
  | notFound
  | alreadyPaid
  | paymentRejected
deriving DecidableEq

/-- Outcome of the settings endpoint (`app/main.py` lines 242-248). -/
inductive SettingsResponse
  | ok (s : ParkingSettings)
  | err404
deriving DecidableEq

/-- The default pricing passed by `handle_vehicle_exit` (and the startup
hook) when no settings row exists (`app/main.py` lines 126-133). -/
def default_settings_update : ParkingSettingsUpdate :=
  { base_price_per_hour := some 50
    additional_price_per_hour := some 30
    free_minutes := some 15 }

/-- Settings lookup-or-create prelude of `handle_vehicle_exit`
(`app/main.py` lines 124-133), factored out so theorems can name the
pricing row the handler will use. -/
def exit_settings (db : DB) : DB × ParkingSettings :=
  match get_parking_settings db with
  | some s => (db, s)
  | none => create_parking_settings db default_settings_update

/-- `handle_vehicle_entry` (`app/main.py` lines 86-111).  The two `Bool`
parameters are the success results returned by
`open_entry_barrier`/`close_entry_barrier`; the code ignores them (and
`control_barrier` swallows its own exceptions), which is the fail-open
policy.  Returns the new state and the issued barrier commands. -/
def handle_vehicle_entry (db : DB) (plate_number image_filename : String)
    (now : ℤ) (_open_result _close_result : Bool) : DB × List BarrierCmd :=
  match get_vehicle_entry_by_plate db plate_number true with
  | some _ => (db, [])
  | none =>
    let created := create_vehicle_entry db
      { plate_number := plate_number
        entry_image := some image_filename
        parking_spot := none } now
    (created.1, [BarrierCmd.openEntry, BarrierCmd.closeEntry])

/-- The `schemas.VehicleEntryUpdate(exit_time=..., exit_image=...,
parking_fee=...)` payload built by `handle_vehicle_exit` (`app/main.py`
lines 143-147); `paid` is not provided. -/
def exit_update (image_filename : String) (now : ℤ) (fee : ℚ) :
    VehicleEntryUpdate :=
  { exit_time := some now
    exit_image := some image_filename
    parking_fee := some fee
    paid := none }

/-- `handle_vehicle_exit` (`app/main.py` lines 113-169): find the open entry
(no-op when absent), read or create the pricing row, compute the fee with
`exit_time = now`, commit exit time, exit image and fee on the row, then
either persist the payment QR (fee > 0, barrier stays closed) or open and
close the exit barrier and mark the row paid (free exit).  The
`updated? = none` arm is unreachable (the row was just found) and mirrors
the exception the Python code would swallow. -/
def handle_vehicle_exit (db : DB) (plate_number image_filename : String)
    (now : ℤ) : DB × List BarrierCmd :=
  match get_vehicle_entry_by_plate db plate_number true with
  | none => (db, [])
  | some vehicle_entry =>
    let looked := exit_settings db
    let parking_fee :=
      calculate_parking_fee (some vehicle_entry.entry_time) (some now) looked.2
    let updated := update_vehicle_entry looked.1 vehicle_entry.id
      (exit_update image_filename now parking_fee)
    match updated.2 with
    | none => (updated.1, [])
    | some updated_entry =>
      if 0 < parking_fee then
        let qr_code := generate_qr_code updated_entry parking_fee
        let entries' :=
          update_first (fun x => x.id == updated_entry.id)
            (fun x => { x with payment_qr := some qr_code })
            updated.1.entries
        ({ updated.1 with entries := entries' }, [])
      else
        ((mark_as_paid updated.1 vehicle_entry.id).1,
          [BarrierCmd.openExit, BarrierCmd.closeExit])

/-- `process_payment` (`app/main.py` lines 251-275).  The payment verifier
is the abstract external collaborator of spec §6, passed as a parameter;
the repository instantiates it with the stub `verify_payment`.  The claim
string is the vehicle-id:amount f-string the endpoint builds. -/
def process_payment (db : DB) (vehicle_id : ℕ) (amount : ℚ)
    (verify : String → Bool) : DB × List BarrierCmd × PaymentResult :=
  match get_vehicle_entry db vehicle_id with
  | none => (db, [], PaymentResult.notFound)
  | some vehicle_entry =>
    if vehicle_entry.paid then (db, [], PaymentResult.alreadyPaid)
    else if verify (toString vehicle_id ++ ":" ++ toString amount) then
      ((mark_as_paid db vehicle_id).1,
        [BarrierCmd.openExit, BarrierCmd.closeExit], PaymentResult.success)
    else (db, [], PaymentResult.paymentRejected)

/-- `create_vehicle_entry_manual` (`app/main.py` lines 297-300): the public
`POST /api/vehicles/` endpoint inserts unconditionally, with no open-entry
check. -/
def create_vehicle_entry_manual (db : DB) (entry : VehicleEntryCreate)
    (now : ℤ) : DB × VehicleEntry :=
  create_vehicle_entry db entry now

/-- `update_settings` endpoint (`app/main.py` lines 242-248): 404 when the
CRUD layer returns `None`. -/
def update_settings (db : DB) (settings : ParkingSettingsUpdate) :
    DB × SettingsResponse :=
  match update_parking_settings db settings with
  | (db', some s) => (db', SettingsResponse.ok s)
  | (db', none) => (db', SettingsResponse.err404)

/-! ## Derived notions used by the invariant claims -/

/-- A row is an open entry for `plate_number`: same plate, no exit
timestamp (spec §3, "Open entry"). -/
def openForPlate (plate_number : String) (e : VehicleEntry) : Bool :=
  e.plate_number == plate_number && e.exit_time.isNone

/-- Number of open entries a plate has in the ledger. -/
def openCount (db : DB) (plate_number : String) : ℕ :=
  db.entries.countP (openForPlate plate_number)

/-- The core concurrency invariant of spec §3: at most one open entry per
plate. -/
def AtMostOneOpen (db : DB) : Prop :=
  ∀ p : String, openCount db p ≤ 1

/-- The fee formula exactly as the specification words it (spec §4.1 and
claim C1): chargeable hours are `ceil((duration − freeMinutes) / 60)` with a
floor of one chargeable hour.  This definition follows the spec's words, for
comparison with `calculate_parking_fee`, which is translated from the code. -/
def spec_fee_formula (durationMinutes base add : ℚ) (free : ℤ) : ℚ :=
  if durationMinutes ≤ (free : ℚ) then 0
  else
    let chargeableHours : ℤ := max 1 ⌈(durationMinutes - (free : ℚ)) / 60⌉
    if chargeableHours = 1 then base
    else base + ((chargeableHours : ℚ) - 1) * add

/-! ## Helper lemmas -/

lemma pick_latest_some (a e : VehicleEntry) :
    pick_latest (some a) e =
      if a.entry_time < e.entry_time then some e else some a :=
  rfl

lemma foldl_pick_latest_isSome (l : List VehicleEntry) :
    ∀ a : VehicleEntry, (l.foldl pick_latest (some a)).isSome = true := by
  induction l with
  | nil => intro a; rfl
  | cons e es ih =>
    intro a
    rw [List.foldl_cons, pick_latest_some]
    by_cases h : a.entry_time < e.entry_time
    · rw [if_pos h]; exact ih e
    · rw [if_neg h]; exact ih a

lemma foldl_pick_latest_mem (l : List VehicleEntry) :
    ∀ (acc : Option VehicleEntry) (x : VehicleEntry),
      l.foldl pick_latest acc = some x → acc = some x ∨ x ∈ l := by
  induction l with
  | nil => intro acc x h; exact Or.inl h
  | cons e es ih =>
    intro acc x h
    rw [List.foldl_cons] at h
    rcases ih (pick_latest acc e) x h with h' | h'
    · cases acc with
      | none =>
        have hx : e = x := Option.some.inj h'
        subst hx
        exact Or.inr (List.mem_cons_self e es)
      | some a =>
        rw [pick_latest_some] at h'
        by_cases ht : a.entry_time < e.entry_time
        · rw [if_pos ht] at h'
          have hx : e = x := Option.some.inj h'
          subst hx
          exact Or.inr (List.mem_cons_self e es)
        · rw [if_neg ht] at h'
          exact Or.inl h'
    · exact Or.inr (List.mem_cons_of_mem _ h')

lemma get_open_eq (db : DB) (p : String) :
    get_vehicle_entry_by_plate db p true =
      (db.entries.filter (openForPlate p)).foldl pick_latest none :=
  rfl

lemma get_open_none_iff (db : DB) (p : String) :
    get_vehicle_entry_by_plate db p true = none ↔
      db.entries.filter (openForPlate p) = [] := by
  rw [get_open_eq]
  cases hl : db.entries.filter (openForPlate p) with
  | nil => simp
  | cons e es =>
    constructor
    · intro h
      exfalso
      rw [List.foldl_cons] at h
      have h2 : es.foldl pick_latest (some e) = none := h
      have h3 := foldl_pick_latest_isSome es e
      rw [h2] at h3
      cases h3
    · intro h
      exact absurd h (List.cons_ne_nil e es)

lemma get_open_some_mem (db : DB) (p : String) (ve : VehicleEntry)
    (h : get_vehicle_entry_by_plate db p true = some ve) :
    ve ∈ db.entries ∧ openForPlate p ve = true := by
  rw [get_open_eq] at h
  rcases foldl_pick_latest_mem _ none ve h with h' | h'
  · cases h'
  · exact ⟨(List.mem_filter.mp h').1, (List.mem_filter.mp h').2⟩

lemma openCount_eq_zero_of_get_none (db : DB) (p : String)
    (h : get_vehicle_entry_by_plate db p true = none) :
    openCount db p = 0 := by
  rw [openCount, List.countP_eq_length_filter, (get_open_none_iff db p).mp h]
  rfl

lemma find?_update_first (p : VehicleEntry → Bool) (f : VehicleEntry → VehicleEntry)
    (hp : ∀ e, p (f e) = p e) (l : List VehicleEntry) :
    (update_first p f l).find? p = (l.find? p).map f := by
  induction l with
  | nil => rfl
  | cons e es ih =>
    unfold update_first
    by_cases h : p e
    · rw [if_pos h, List.find?_cons_of_pos _ ((hp e).trans h),
        List.find?_cons_of_pos _ h, Option.map_some']
    · rw [if_neg h, List.find?_cons_of_neg _ h, List.find?_cons_of_neg _ h, ih]

lemma find?_id_of_nodup (l : List VehicleEntry) (ve : VehicleEntry)
    (hnd : (l.map VehicleEntry.id).Nodup) (hmem : ve ∈ l) :
    l.find? (fun e => e.id == ve.id) = some ve := by
  induction l with
  | nil => cases hmem
  | cons e es ih =>
    rw [List.map_cons, List.nodup_cons] at hnd
    rcases List.mem_cons.mp hmem with hx | hmem'
    · subst hx
      exact List.find?_cons_of_pos _ (by simp)
    · have hne : ¬(e.id == ve.id) = true := by
        intro hbe
        apply hnd.1
        rw [eq_of_beq hbe]
        exact List.mem_map_of_mem VehicleEntry.id hmem'
      have hstep : List.find? (fun x => x.id == ve.id) (e :: es) =
          List.find? (fun x => x.id == ve.id) es :=
        List.find?_cons_of_neg es hne
      rw [hstep]
      exact ih hnd.2 hmem'

lemma update_first_countP_le (q p : VehicleEntry → Bool)
    (f : VehicleEntry → VehicleEntry)
    (h : ∀ e, q (f e) = true → q e = true) (l : List VehicleEntry) :
    List.countP q (update_first p f l) ≤ List.countP q l := by
  induction l with
  | nil => exact Nat.le_refl _
  | cons e es ih =>
    unfold update_first
    by_cases hp : p e
    · rw [if_pos hp, List.countP_cons, List.countP_cons]
      have hle : (if q (f e) then 1 else 0) ≤ (if q e then 1 else 0) := by
        by_cases hq : q (f e) = true
        · rw [if_pos hq, if_pos (h e hq)]
        · rw [if_neg hq]
          exact Nat.zero_le _
      omega
    · rw [if_neg hp, List.countP_cons, List.countP_cons]
      have := ih
      omega

lemma exit_settings_entries (db : DB) :
    (exit_settings db).1.entries = db.entries := by
  cases h : db.settings with
  | none => simp [exit_settings, get_parking_settings, h, create_parking_settings]
  | some s => simp [exit_settings, get_parking_settings, h]

lemma exit_settings_next_id (db : DB) :
    (exit_settings db).1.next_id = db.next_id := by
  cases h : db.settings with
  | none => simp [exit_settings, get_parking_settings, h, create_parking_settings]
  | some s => simp [exit_settings, get_parking_settings, h]

lemma ceil_div_sixty_eq_floor (a : ℤ) :
    ⌈(a : ℚ) / 60⌉ = ⌊((a : ℚ) + 59) / 60⌋ := by
  have h1 : ((a : ℚ) + 59) / 60 = ((a + 59 : ℤ) : ℚ) / ((60 : ℕ) : ℚ) := by
    push_cast
    ring
  have h2 : -((a : ℚ) / 60) = ((-a : ℤ) : ℚ) / ((60 : ℕ) : ℚ) := by
    push_cast
    ring
  have h3 : ⌈(a : ℚ) / 60⌉ = -⌊-((a : ℚ) / 60)⌋ := by
    rw [← Int.ceil_neg, neg_neg]
  rw [h3, h2, h1, Rat.floor_intCast_div_natCast, Rat.floor_intCast_div_natCast]
  omega

/-- The fee of `calculate_parking_fee` as a function of the duration in
(possibly fractional) minutes; `calculate_parking_fee` on present timestamps
is definitionally this function at `(exit − entry)/60`. -/
def fee_of_duration (d : ℚ) (base add : ℚ) (free : ℤ) : ℚ :=
  if d ≤ (free : ℚ) then 0
  else if max 1 ⌊(d - (free : ℚ) + 59) / 60⌋ = 1 then base
  else base + (((max 1 ⌊(d - (free : ℚ) + 59) / 60⌋ : ℤ) : ℚ) - 1) * add

lemma calculate_parking_fee_eq_fee_of_duration (et xt : ℤ) (s : ParkingSettings) :
    calculate_parking_fee (some et) (some xt) s =
      fee_of_duration (((xt - et : ℤ) : ℚ) / 60) s.base_price_per_hour
        s.additional_price_per_hour s.free_minutes :=
  rfl

lemma fee_of_duration_nonneg (d : ℚ) (base add : ℚ) (free : ℤ)
    (hb : 0 ≤ base) (ha : 0 ≤ add) :
    0 ≤ fee_of_duration d base add free := by
  unfold fee_of_duration
  split_ifs with h1 h2
  · exact le_refl 0
  · exact hb
  · have hch : (1 : ℤ) ≤ max 1 ⌊(d - (free : ℚ) + 59) / 60⌋ := le_max_left _ _
    have hch' : (1 : ℚ) ≤ ((max 1 ⌊(d - (free : ℚ) + 59) / 60⌋ : ℤ) : ℚ) := by
      exact_mod_cast hch
    have hmul : 0 ≤ (((max 1 ⌊(d - (free : ℚ) + 59) / 60⌋ : ℤ) : ℚ) - 1) * add :=
      mul_nonneg (by linarith) ha
    linarith

lemma fee_of_duration_mono (base add : ℚ) (free : ℤ) (hb : 0 ≤ base)
    (ha : 0 ≤ add) (d₁ d₂ : ℚ) (hd : d₁ ≤ d₂) :
    fee_of_duration d₁ base add free ≤ fee_of_duration d₂ base add free := by
  by_cases h1 : d₁ ≤ (free : ℚ)
  · have h0 := fee_of_duration_nonneg d₂ base add free hb ha
    unfold fee_of_duration
    rw [if_pos h1]
    exact h0
  · have h2 : ¬d₂ ≤ (free : ℚ) := fun hc => h1 (le_trans hd hc)
    unfold fee_of_duration
    rw [if_neg h1, if_neg h2]
    set c₁ := max 1 ⌊(d₁ - (free : ℚ) + 59) / 60⌋ with hc₁
    set c₂ := max 1 ⌊(d₂ - (free : ℚ) + 59) / 60⌋ with hc₂
    have hcle : c₁ ≤ c₂ := by
      apply max_le_max (le_refl (1 : ℤ))
      apply Int.floor_le_floor
      have harg : d₁ - (free : ℚ) + 59 ≤ d₂ - (free : ℚ) + 59 := by linarith
      exact (div_le_div_iff_of_pos_right (by norm_num : (0 : ℚ) < 60)).mpr harg
    have hc1ge : (1 : ℤ) ≤ c₁ := le_max_left _ _
    by_cases e1 : c₁ = 1
    · rw [if_pos e1]
      by_cases e2 : c₂ = 1
      · rw [if_pos e2]
      · rw [if_neg e2]
        have hge : (1 : ℤ) ≤ c₂ := le_max_left _ _
        have hge' : (1 : ℚ) ≤ ((c₂ : ℤ) : ℚ) := by exact_mod_cast hge
        have := mul_nonneg (by linarith : (0 : ℚ) ≤ ((c₂ : ℤ) : ℚ) - 1) ha
        linarith
    · rw [if_neg e1]
      have e2 : ¬c₂ = 1 := by
        intro hc
        rw [hc] at hcle
        exact e1 (le_antisymm hcle hc1ge)
      rw [if_neg e2]
      have hcast : ((c₁ : ℤ) : ℚ) ≤ ((c₂ : ℤ) : ℚ) := by exact_mod_cast hcle
      have := mul_le_mul_of_nonneg_right (by linarith :
        ((c₁ : ℤ) : ℚ) - 1 ≤ ((c₂ : ℤ) : ℚ) - 1) ha
      linarith

lemma fee_of_duration_int_eq_spec (m free : ℤ) (base add : ℚ) :
    fee_of_duration (m : ℚ) base add free = spec_fee_formula (m : ℚ) base add free := by
  unfold fee_of_duration spec_fee_formula
  by_cases h : (m : ℚ) ≤ (free : ℚ)
  · rw [if_pos h, if_pos h]
  · rw [if_neg h, if_neg h]
    have h1 : (m : ℚ) - (free : ℚ) = ((m - free : ℤ) : ℚ) := by push_cast; ring
    rw [h1, ceil_div_sixty_eq_floor]

/-! ## Claim theorems about the Fee Calculator -/

/-- Claim C8: `calculate_parking_fee` returns zero whenever either timestamp
is absent, and (for any config with `free_minutes ≥ 0`) whenever
`exit_time < entry_time`; no charge is produced on an invalid interval. -/
theorem calculate_parking_fee_invalid_interval (et xt : ℤ) (s : ParkingSettings)
    (hfree : 0 ≤ s.free_minutes) :
    (∀ t : Option ℤ, calculate_parking_fee none t s = 0) ∧
    (∀ t : Option ℤ, calculate_parking_fee t none s = 0) ∧
    (xt < et → calculate_parking_fee (some et) (some xt) s = 0) := by
  refine ⟨fun t => by cases t <;> rfl, fun t => by cases t <;> rfl, fun hlt => ?_⟩
  rw [calculate_parking_fee_eq_fee_of_duration]
  unfold fee_of_duration
  have hneg : ((xt - et : ℤ) : ℚ) < 0 := by exact_mod_cast (by omega : (xt - et : ℤ) < 0)
  have hfq : (0 : ℚ) ≤ (s.free_minutes : ℚ) := by exact_mod_cast hfree
  have hd : ((xt - et : ℤ) : ℚ) / 60 ≤ (s.free_minutes : ℚ) := by
    have : ((xt - et : ℤ) : ℚ) / 60 < 0 := div_neg_of_neg_of_pos hneg (by norm_num)
    linarith
  rw [if_pos hd]

/-- Witness for C8 at entry 10, exit 3 (exit before entry) and the default
config. -/
theorem calculate_parking_fee_invalid_interval_witness :
    (0 : ℤ) ≤ (⟨50, 30, 15⟩ : ParkingSettings).free_minutes ∧
    (3 : ℤ) < 10 ∧
    calculate_parking_fee (some 10) (some 3) ⟨50, 30, 15⟩ = 0 :=
  ⟨by norm_num, by norm_num,
    (calculate_parking_fee_invalid_interval 10 3 ⟨50, 30, 15⟩ (by norm_num)).2.2
      (by norm_num)⟩

/-- Claim C9: for a fixed config with non-negative rates and non-negative
free minutes, the fee is monotonically non-decreasing in the duration
`exit − entry`, and is zero whenever the duration is at most the free
minutes. -/
theorem calculate_parking_fee_monotone (base add : ℚ) (free : ℤ)
    (hb : 0 ≤ base) (ha : 0 ≤ add) (hf : 0 ≤ free)
    (et₁ xt₁ et₂ xt₂ : ℤ) (h₁ : et₁ ≤ xt₁) (h₂ : et₂ ≤ xt₂)
    (hd : xt₁ - et₁ ≤ xt₂ - et₂) :
    calculate_parking_fee (some et₁) (some xt₁) ⟨base, add, free⟩ ≤
      calculate_parking_fee (some et₂) (some xt₂) ⟨base, add, free⟩ ∧
    (((xt₁ - et₁ : ℤ) : ℚ) / 60 ≤ (free : ℚ) →
      calculate_parking_fee (some et₁) (some xt₁) ⟨base, add, free⟩ = 0) := by
  constructor
  · rw [calculate_parking_fee_eq_fee_of_duration,
      calculate_parking_fee_eq_fee_of_duration]
    apply fee_of_duration_mono _ _ _ hb ha
    have hcast : ((xt₁ - et₁ : ℤ) : ℚ) ≤ ((xt₂ - et₂ : ℤ) : ℚ) := by exact_mod_cast hd
    exact (div_le_div_iff_of_pos_right (by norm_num : (0 : ℚ) < 60)).mpr hcast
  · intro h
    rw [calculate_parking_fee_eq_fee_of_duration]
    unfold fee_of_duration
    rw [if_pos h]

/-- Witness for C9: 5 minutes vs 120 minutes at the default config. -/
theorem calculate_parking_fee_monotone_witness :
    (0 : ℚ) ≤ 50 ∧ (0 : ℚ) ≤ 30 ∧ (0 : ℤ) ≤ 15 ∧
    (calculate_parking_fee (some 0) (some 300) ⟨50, 30, 15⟩ ≤
      calculate_parking_fee (some 0) (some 7200) ⟨50, 30, 15⟩ ∧
    (((300 - 0 : ℤ) : ℚ) / 60 ≤ ((15 : ℤ) : ℚ) →
      calculate_parking_fee (some 0) (some 300) ⟨50, 30, 15⟩ = 0)) :=
  ⟨by norm_num, by norm_num, by norm_num,
    calculate_parking_fee_monotone 50 30 15 (by norm_num) (by norm_num)
      (by norm_num) 0 300 0 7200 (by norm_num) (by norm_num) (by norm_num)⟩

/-- Counterexample to claim C1 as stated: at entry 0 s, exit 4530 s (75.5
minutes) and the default config, the code computes `max(1, ⌊(75.5 − 15 +
59)/60⌋) = 1` chargeable hour and returns 50, while the claimed
`ceil((duration − freeMinutes)/60)` formula gives `⌈60.5/60⌉ = 2` hours and
fee 80.  The claim quantifies over every entry/exit time, and the code keeps
fractional minutes, so the two disagree. -/
theorem calculate_parking_fee_claim_formula_cex :
    calculate_parking_fee (some 0) (some 4530) ⟨50, 30, 15⟩ = 50 ∧
    spec_fee_formula (((4530 - 0 : ℤ) : ℚ) / 60) 50 30 15 = 80 ∧
    (50 : ℚ) ≠ 80 := by
  refine ⟨?_, ?_, by norm_num⟩
  · show fee_of_duration (((4530 - 0 : ℤ) : ℚ) / 60) 50 30 15 = 50
    rw [show ((4530 - 0 : ℤ) : ℚ) / 60 = 151 / 2 by norm_num]
    unfold fee_of_duration
    have hfl : ⌊((151 / 2 : ℚ) - ((15 : ℤ) : ℚ) + 59) / 60⌋ = 1 := by
      rw [show ((151 / 2 : ℚ) - ((15 : ℤ) : ℚ) + 59) / 60 = 239 / 120 by
        push_cast; norm_num]
      rw [Int.floor_eq_iff]
      norm_num
    rw [if_neg (by push_cast; norm_num), hfl]
    norm_num
  · rw [show ((4530 - 0 : ℤ) : ℚ) / 60 = 151 / 2 by norm_num]
    unfold spec_fee_formula
    have hcl : ⌈((151 / 2 : ℚ) - ((15 : ℤ) : ℚ)) / 60⌉ = 2 := by
      rw [show ((151 / 2 : ℚ) - ((15 : ℤ) : ℚ)) / 60 = 121 / 120 by
        push_cast; norm_num]
      rw [Int.ceil_eq_iff]
      norm_num
    rw [if_neg (by push_cast; norm_num), hcl]
    norm_num

/-- Claim C1 as amended: for non-negative rates, `freeMinutes ≥ 0`,
`exit ≥ entry` and a duration that is a whole number of minutes, the fee of
`calculate_parking_fee` is exactly the specification formula: 0 within the
free minutes, otherwise `base` for one chargeable hour and
`base + (ch − 1) · additional` for `ch = max 1 ⌈(duration − free)/60⌉`
chargeable hours.  (For fractional-minute durations the code's
`max(1, ⌊(d − free + 59)/60⌋)` can be one below the ceiling.) -/
theorem calculate_parking_fee_whole_minute_formula (et xt : ℤ) (base add : ℚ)
    (free : ℤ) (hb : 0 ≤ base) (ha : 0 ≤ add) (hf : 0 ≤ free)
    (hle : et ≤ xt) (hdvd : (60 : ℤ) ∣ (xt - et)) :
    calculate_parking_fee (some et) (some xt) ⟨base, add, free⟩ =
      spec_fee_formula (((xt - et : ℤ) : ℚ) / 60) base add free := by
  obtain ⟨m, hm⟩ := hdvd
  have hd : ((xt - et : ℤ) : ℚ) / 60 = (m : ℚ) := by
    rw [hm]
    push_cast
    field_simp
  show fee_of_duration (((xt - et : ℤ) : ℚ) / 60) base add free = _
  rw [hd]
  exact fee_of_duration_int_eq_spec m free base add

/-- Witness for amended C1, the spec's own scenario: entry 10:00 (36000 s),
exit 13:20 (48000 s), free 15 min, base 50, additional 30 — fee 140. -/
theorem calculate_parking_fee_whole_minute_formula_witness :
    calculate_parking_fee (some 36000) (some 48000) ⟨50, 30, 15⟩ = 140 := by
  have h := calculate_parking_fee_whole_minute_formula 36000 48000 50 30 15
    (by norm_num) (by norm_num) (by norm_num) (by norm_num) (by norm_num)
  rw [h, show ((48000 - 36000 : ℤ) : ℚ) / 60 = 200 by norm_num]
  unfold spec_fee_formula
  have hcl : ⌈((200 : ℚ) - ((15 : ℤ) : ℚ)) / 60⌉ = 4 := by
    rw [show ((200 : ℚ) - ((15 : ℤ) : ℚ)) / 60 = 37 / 12 by push_cast; norm_num]
    rw [Int.ceil_eq_iff]
    norm_num
  rw [if_neg (by push_cast; norm_num), hcl]
  norm_num

/-! ## Claim theorems about the Lifecycle Coordinator -/

/-- Claim C6: exit detection for a plate with no open entry is a pure no-op:
the ledger is unchanged and no barrier command is issued (and, the function
being total, no exception escapes). -/
theorem handle_vehicle_exit_no_entry_noop (db : DB) (plate img : String)
    (now : ℤ) (h : get_vehicle_entry_by_plate db plate true = none) :
    handle_vehicle_exit db plate img now = (db, []) := by
  unfold handle_vehicle_exit
  rw [h]

/-- Witness for C6 on the empty ledger. -/
theorem handle_vehicle_exit_no_entry_noop_witness :
    get_vehicle_entry_by_plate ⟨[], none, 0⟩ "A001" true = none ∧
    handle_vehicle_exit ⟨[], none, 0⟩ "A001" "img" 100 = (⟨[], none, 0⟩, []) :=
  ⟨rfl, handle_vehicle_exit_no_entry_noop ⟨[], none, 0⟩ "A001" "img" 100 rfl⟩

/-- Claim C7: when no open entry exists, entry detection creates an entry
whose entry timestamp is the detection time and which has no exit fields,
and the resulting ledger is the same for every outcome of the barrier
commands — actuator failure never rolls back the creation (fail-open). -/
theorem handle_vehicle_entry_fail_open (db : DB) (plate img : String) (now : ℤ)
    (h : get_vehicle_entry_by_plate db plate true = none)
    (r₁ r₂ r₁' r₂' : Bool) :
    handle_vehicle_entry db plate img now r₁ r₂ =
      handle_vehicle_entry db plate img now r₁' r₂' ∧
    (create_vehicle_entry db ⟨plate, some img, none⟩ now).2 ∈
      (handle_vehicle_entry db plate img now r₁ r₂).1.entries ∧
    (create_vehicle_entry db ⟨plate, some img, none⟩ now).2.entry_time = now ∧
    (create_vehicle_entry db ⟨plate, some img, none⟩ now).2.exit_time = none := by
  refine ⟨rfl, ?_, rfl, rfl⟩
  unfold handle_vehicle_entry
  rw [h]
  show (create_vehicle_entry db ⟨plate, some img, none⟩ now).2 ∈
    db.entries ++ [(create_vehicle_entry db ⟨plate, some img, none⟩ now).2]
  exact List.mem_append_right _ (List.mem_singleton_self _)

/-- Witness for C7 on the empty ledger, with both barrier commands failing
in one run and succeeding in the other. -/
theorem handle_vehicle_entry_fail_open_witness :
    get_vehicle_entry_by_plate ⟨[], none, 0⟩ "A001" true = none ∧
    (handle_vehicle_entry ⟨[], none, 0⟩ "A001" "img" 100 false false =
      handle_vehicle_entry ⟨[], none, 0⟩ "A001" "img" 100 true true ∧
    (create_vehicle_entry ⟨[], none, 0⟩ ⟨"A001", some "img", none⟩ 100).2 ∈
      (handle_vehicle_entry ⟨[], none, 0⟩ "A001" "img" 100 false false).1.entries ∧
    (create_vehicle_entry ⟨[], none, 0⟩ ⟨"A001", some "img", none⟩ 100).2.entry_time
      = 100 ∧
    (create_vehicle_entry ⟨[], none, 0⟩ ⟨"A001", some "img", none⟩ 100).2.exit_time
      = none) :=
  ⟨rfl, handle_vehicle_entry_fail_open ⟨[], none, 0⟩ "A001" "img" 100 rfl
    false false true true⟩

/-- Claim C4: entry detection is idempotent — when an open entry for the
plate exists the handler mutates nothing, and delivering the same detection
twice from a state with no open entry creates exactly one entry. -/
theorem handle_vehicle_entry_idempotent (db : DB) (plate img img' : String)
    (now now' : ℤ) (r₁ r₂ r₁' r₂' : Bool) :
    ((get_vehicle_entry_by_plate db plate true).isSome = true →
      handle_vehicle_entry db plate img now r₁ r₂ = (db, [])) ∧
    (get_vehicle_entry_by_plate db plate true = none →
      (handle_vehicle_entry (handle_vehicle_entry db plate img now r₁ r₂).1
          plate img' now' r₁' r₂').1 =
        (handle_vehicle_entry db plate img now r₁ r₂).1 ∧
      (handle_vehicle_entry db plate img now r₁ r₂).1.entries.length =
        db.entries.length + 1) := by
  constructor
  · intro hs
    unfold handle_vehicle_entry
    cases hg : get_vehicle_entry_by_plate db plate true with
    | none => rw [hg] at hs; cases hs
    | some v => rfl
  · intro hn
    have hstep : handle_vehicle_entry db plate img now r₁ r₂ =
        ((create_vehicle_entry db ⟨plate, some img, none⟩ now).1,
          [BarrierCmd.openEntry, BarrierCmd.closeEntry]) := by
      unfold handle_vehicle_entry
      rw [hn]
    constructor
    · rw [hstep]
      have hfil : (create_vehicle_entry db ⟨plate, some img, none⟩ now).1.entries.filter
          (openForPlate plate) =
          [(create_vehicle_entry db ⟨plate, some img, none⟩ now).2] := by
        show (db.entries ++
          [(create_vehicle_entry db ⟨plate, some img, none⟩ now).2]).filter
            (openForPlate plate) = _
        rw [List.filter_append, (get_open_none_iff db plate).mp hn]
        simp [openForPlate, create_vehicle_entry]
      have hsome : get_vehicle_entry_by_plate
          (create_vehicle_entry db ⟨plate, some img, none⟩ now).1 plate true =
          some (create_vehicle_entry db ⟨plate, some img, none⟩ now).2 := by
        rw [get_open_eq, hfil]
        rfl
      unfold handle_vehicle_entry
      rw [hsome]
    · rw [hstep]
      show (db.entries ++ [_]).length = db.entries.length + 1
      simp

/-- Witness for C4: a duplicate detection on a one-entry ledger is a no-op,
and a double detection on the empty ledger creates exactly one entry. -/
theorem handle_vehicle_entry_idempotent_witness :
    (get_vehicle_entry_by_plate
      (⟨[⟨0, none, "A001", 0, none, none, none, 0, false, none⟩], none, 1⟩ : DB)
      "A001" true).isSome = true ∧
    handle_vehicle_entry
      (⟨[⟨0, none, "A001", 0, none, none, none, 0, false, none⟩], none, 1⟩ : DB)
      "A001" "i1" 5 true true =
      (⟨[⟨0, none, "A001", 0, none, none, none, 0, false, none⟩], none, 1⟩, []) ∧
    get_vehicle_entry_by_plate (⟨[], none, 0⟩ : DB) "B002" true = none ∧
    ((handle_vehicle_entry
        (handle_vehicle_entry ⟨[], none, 0⟩ "B002" "i1" 5 true true).1
        "B002" "i2" 9 false false).1 =
      (handle_vehicle_entry ⟨[], none, 0⟩ "B002" "i1" 5 true true).1 ∧
    (handle_vehicle_entry ⟨[], none, 0⟩ "B002" "i1" 5 true true).1.entries.length =
      (⟨[], none, 0⟩ : DB).entries.length + 1) :=
  ⟨rfl,
    (handle_vehicle_entry_idempotent
      ⟨[⟨0, none, "A001", 0, none, none, none, 0, false, none⟩], none, 1⟩
      "A001" "i1" "i2" 5 9 true true false false).1 rfl,
    rfl,
    (handle_vehicle_entry_idempotent ⟨[], none, 0⟩ "B002" "i1" "i2" 5 9
      true true false false).2 rfl⟩

/-- Claim C5: payment confirmation fails with `notFound` on an unknown id,
with `alreadyPaid` on an already-paid entry, and with `paymentRejected`
when the verifier rejects the claim; in each failure case the ledger is
unchanged and no barrier command is issued. -/
theorem process_payment_failure_cases (db : DB) (vid : ℕ) (amt : ℚ)
    (verify : String → Bool) :
    (get_vehicle_entry db vid = none →
      process_payment db vid amt verify = (db, [], PaymentResult.notFound)) ∧
    (∀ ve, get_vehicle_entry db vid = some ve → ve.paid = true →
      process_payment db vid amt verify = (db, [], PaymentResult.alreadyPaid)) ∧
    (∀ ve, get_vehicle_entry db vid = some ve → ve.paid = false →
      verify (toString vid ++ ":" ++ toString amt) = false →
      process_payment db vid amt verify = (db, [], PaymentResult.paymentRejected)) := by
  refine ⟨?_, ?_, ?_⟩
  · intro h
    unfold process_payment
    rw [h]
  · intro ve h hp
    unfold process_payment
    rw [h]
    simp [hp]
  · intro ve h hp hv
    unfold process_payment
    rw [h]
    simp [hp, hv]

/-- Witness for C5: all three failure cases at concrete ledgers — unknown
id 7, entry 0 already paid, and a verifier that rejects entry 0's claim. -/
theorem process_payment_failure_cases_witness :
    get_vehicle_entry (⟨[], none, 0⟩ : DB) 7 = none ∧
    process_payment ⟨[], none, 0⟩ 7 50 (fun _ => true) =
      (⟨[], none, 0⟩, [], PaymentResult.notFound) ∧
    get_vehicle_entry
      (⟨[⟨0, none, "A001", 0, some 3600, none, none, 50, true, none⟩], none, 1⟩ : DB)
      0 = some ⟨0, none, "A001", 0, some 3600, none, none, 50, true, none⟩ ∧
    process_payment
      ⟨[⟨0, none, "A001", 0, some 3600, none, none, 50, true, none⟩], none, 1⟩
      0 50 (fun _ => true) =
      (⟨[⟨0, none, "A001", 0, some 3600, none, none, 50, true, none⟩], none, 1⟩,
        [], PaymentResult.alreadyPaid) ∧
    get_vehicle_entry
      (⟨[⟨0, none, "A001", 0, some 3600, none, none, 50, false, none⟩], none, 1⟩ : DB)
      0 = some ⟨0, none, "A001", 0, some 3600, none, none, 50, false, none⟩ ∧
    process_payment
      ⟨[⟨0, none, "A001", 0, some 3600, none, none, 50, false, none⟩], none, 1⟩
      0 50 (fun _ => false) =
      (⟨[⟨0, none, "A001", 0, some 3600, none, none, 50, false, none⟩], none, 1⟩,
        [], PaymentResult.paymentRejected) :=
  ⟨rfl,
    (process_payment_failure_cases ⟨[], none, 0⟩ 7 50 (fun _ => true)).1 rfl,
    rfl,
    (process_payment_failure_cases
      ⟨[⟨0, none, "A001", 0, some 3600, none, none, 50, true, none⟩], none, 1⟩
      0 50 (fun _ => true)).2.1
      ⟨0, none, "A001", 0, some 3600, none, none, 50, true, none⟩ rfl rfl,
    rfl,
    (process_payment_failure_cases
      ⟨[⟨0, none, "A001", 0, some 3600, none, none, 50, false, none⟩], none, 1⟩
      0 50 (fun _ => false)).2.2
      ⟨0, none, "A001", 0, some 3600, none, none, 50, false, none⟩ rfl rfl rfl⟩

/-- Claim C10: `update_parking_settings` never returns `None` — it updates
the existing row, or creates one whose omitted fields take the model
defaults 50.0 / 30.0 / 15 — so the 404 branch of the settings endpoint is
unreachable. -/
theorem update_parking_settings_never_none (db : DB)
    (su : ParkingSettingsUpdate) :
    (update_parking_settings db su).2.isSome = true ∧
    (db.settings = none →
      (update_parking_settings db su).2 =
        some ⟨su.base_price_per_hour.getD 50,
          su.additional_price_per_hour.getD 30, su.free_minutes.getD 15⟩) ∧
    (update_settings db su).2 ≠ SettingsResponse.err404 := by
  refine ⟨?_, ?_, ?_⟩
  · cases hs : db.settings with
    | some s => simp [update_parking_settings, hs]
    | none => simp [update_parking_settings, hs, create_parking_settings]
  · intro hn
    simp [update_parking_settings, hn, create_parking_settings]
  · cases hs : db.settings with
    | some s => simp [update_settings, update_parking_settings, hs]
    | none => simp [update_settings, update_parking_settings, hs,
        create_parking_settings]

/-- Witness for C10: updating only the free minutes on an empty ledger
creates the row `(50, 30, 20)` from the model defaults. -/
theorem update_parking_settings_never_none_witness :
    (⟨[], none, 0⟩ : DB).settings = none ∧
    ((update_parking_settings ⟨[], none, 0⟩ ⟨none, none, some 20⟩).2.isSome = true ∧
    (update_parking_settings ⟨[], none, 0⟩ ⟨none, none, some 20⟩).2 =
      some ⟨50, 30, 20⟩ ∧
    (update_settings ⟨[], none, 0⟩ ⟨none, none, some 20⟩).2 ≠
      SettingsResponse.err404) :=
  ⟨rfl,
    (update_parking_settings_never_none ⟨[], none, 0⟩ ⟨none, none, some 20⟩).1,
    (update_parking_settings_never_none ⟨[], none, 0⟩ ⟨none, none, some 20⟩).2.1 rfl,
    (update_parking_settings_never_none ⟨[], none, 0⟩ ⟨none, none, some 20⟩).2.2⟩

lemma countP_singleton (p : VehicleEntry → Bool) (e : VehicleEntry) :
    List.countP p [e] = if p e = true then 1 else 0 := by
  simp [List.countP_cons]

lemma apply_entry_update_open (u : VehicleEntryUpdate) (q : String)
    (e : VehicleEntry)
    (h : openForPlate q (apply_entry_update u e) = true) :
    openForPlate q e = true := by
  cases hu : u.exit_time with
  | some t =>
    exfalso
    unfold openForPlate apply_entry_update at h
    rw [hu] at h
    simp at h
  | none =>
    unfold openForPlate apply_entry_update at h
    rw [hu] at h
    exact h

lemma openCount_update_vehicle_entry_le (d : DB) (i : ℕ)
    (u : VehicleEntryUpdate) (q : String) :
    openCount (update_vehicle_entry d i u).1 q ≤ openCount d q := by
  unfold update_vehicle_entry
  cases hf : d.entries.find? (fun e => e.id == i) with
  | none => exact le_refl _
  | some e =>
    exact update_first_countP_le (openForPlate q) _ (apply_entry_update u)
      (fun e' he' => apply_entry_update_open u q e' he') d.entries

lemma openCount_mark_as_paid_le (d : DB) (i : ℕ) (q : String) :
    openCount (mark_as_paid d i).1 q ≤ openCount d q := by
  unfold mark_as_paid
  cases hf : d.entries.find? (fun e => e.id == i) with
  | none => exact le_refl _
  | some e =>
    exact update_first_countP_le (openForPlate q) (fun x => x.id == i)
      (fun x => { x with paid := true }) (fun e' he' => he') d.entries

lemma handle_vehicle_exit_openCount_le (db : DB) (plate img : String)
    (now : ℤ) (q : String) :
    openCount (handle_vehicle_exit db plate img now).1 q ≤ openCount db q := by
  unfold handle_vehicle_exit
  cases hg : get_vehicle_entry_by_plate db plate true with
  | none => exact le_refl _
  | some ve =>
    dsimp only
    have hD1 : openCount (exit_settings db).1 q = openCount db q := by
      unfold openCount
      rw [exit_settings_entries]
    cases hu : (update_vehicle_entry (exit_settings db).1 ve.id
        (exit_update img now (calculate_parking_fee (some ve.entry_time)
          (some now) (exit_settings db).2))).2 with
    | none =>
      exact le_trans (openCount_update_vehicle_entry_le (exit_settings db).1
        ve.id _ q) (le_of_eq hD1)
    | some ue =>
      dsimp only
      by_cases hfee : 0 < calculate_parking_fee (some ve.entry_time) (some now)
        (exit_settings db).2
      · rw [if_pos hfee]
        refine le_trans (update_first_countP_le (openForPlate q)
          (fun x => x.id == ue.id)
          (fun x => { x with payment_qr := some (generate_qr_code ue
            (calculate_parking_fee (some ve.entry_time) (some now)
              (exit_settings db).2)) })
          (fun e' he' => he')
          (update_vehicle_entry (exit_settings db).1 ve.id
            (exit_update img now (calculate_parking_fee (some ve.entry_time)
              (some now) (exit_settings db).2))).1.entries) ?_
        exact le_trans (openCount_update_vehicle_entry_le (exit_settings db).1
          ve.id _ q) (le_of_eq hD1)
      · rw [if_neg hfee]
        refine le_trans (openCount_mark_as_paid_le
          (update_vehicle_entry (exit_settings db).1 ve.id
            (exit_update img now (calculate_parking_fee (some ve.entry_time)
              (some now) (exit_settings db).2))).1 ve.id q) ?_
        exact le_trans (openCount_update_vehicle_entry_le (exit_settings db).1
          ve.id _ q) (le_of_eq hD1)

lemma process_payment_openCount_le (db : DB) (vid : ℕ) (amt : ℚ)
    (verify : String → Bool) (q : String) :
    openCount (process_payment db vid amt verify).1 q ≤ openCount db q := by
  unfold process_payment
  cases hf : get_vehicle_entry db vid with
  | none => exact le_refl _
  | some ve =>
    dsimp only
    by_cases hp : ve.paid = true
    · rw [if_pos hp]
    · rw [if_neg hp]
      by_cases hv : verify (toString vid ++ ":" ++ toString amt) = true
      · rw [if_pos hv]
        exact openCount_mark_as_paid_le db vid q
      · rw [if_neg hv]

/-- Claim C2 as amended: each serialized Coordinator operation — entry
detection, exit detection, payment confirmation — preserves the
at-most-one-open-entry invariant.  (As stated, the claim also covers the
public manual entry-creation endpoint and unserialized concurrent entry
detections; the endpoint inserts unconditionally and breaks the invariant —
see the counterexample — and the code has no per-plate lock.) -/
theorem coordinator_preserves_at_most_one_open (db : DB) (plate img : String)
    (now : ℤ) (r₁ r₂ : Bool) (vid : ℕ) (amt : ℚ) (verify : String → Bool)
    (h : AtMostOneOpen db) :
    AtMostOneOpen (handle_vehicle_entry db plate img now r₁ r₂).1 ∧
    AtMostOneOpen (handle_vehicle_exit db plate img now).1 ∧
    AtMostOneOpen (process_payment db vid amt verify).1 := by
  refine ⟨?_, ?_, ?_⟩
  · cases hg : get_vehicle_entry_by_plate db plate true with
    | some v =>
      have hstep : (handle_vehicle_entry db plate img now r₁ r₂).1 = db := by
        unfold handle_vehicle_entry
        rw [hg]
      rw [hstep]
      exact h
    | none =>
      have hstep : (handle_vehicle_entry db plate img now r₁ r₂).1 =
          (create_vehicle_entry db ⟨plate, some img, none⟩ now).1 := by
        unfold handle_vehicle_entry
        rw [hg]
      rw [hstep]
      intro q
      show List.countP (openForPlate q)
        (db.entries ++ [(create_vehicle_entry db ⟨plate, some img, none⟩ now).2]) ≤ 1
      rw [List.countP_append, countP_singleton]
      by_cases hpq : plate = q
      · subst hpq
        have h0 : List.countP (openForPlate plate) db.entries = 0 :=
          openCount_eq_zero_of_get_none db plate hg
        rw [h0]
        simp [openForPlate, create_vehicle_entry]
      · have hne : openForPlate q
            (create_vehicle_entry db ⟨plate, some img, none⟩ now).2 = false := by
          simp [openForPlate, create_vehicle_entry, hpq]
        rw [hne]
        simpa using h q
  · intro q
    exact le_trans (handle_vehicle_exit_openCount_le db plate img now q) (h q)
  · intro q
    exact le_trans (process_payment_openCount_le db vid amt verify q) (h q)

/-- Counterexample to claim C2 as stated: from a ledger satisfying the
invariant with one open entry for plate `A001`, the public entry-creating
interface `POST /api/vehicles/` (`create_vehicle_entry_manual`) inserts a
second open entry for the same plate without any check, violating
at-most-one-open-entry. -/
theorem manual_entry_breaks_at_most_one_open :
    AtMostOneOpen
      (⟨[⟨0, none, "A001", 0, none, none, none, 0, false, none⟩], none, 1⟩ : DB) ∧
    ¬AtMostOneOpen (create_vehicle_entry_manual
      ⟨[⟨0, none, "A001", 0, none, none, none, 0, false, none⟩], none, 1⟩
      ⟨"A001", none, none⟩ 5).1 := by
  constructor
  · intro p
    exact List.countP_le_length _
  · intro hcon
    have h2 := hcon "A001"
    have hev : openCount (create_vehicle_entry_manual
        ⟨[⟨0, none, "A001", 0, none, none, none, 0, false, none⟩], none, 1⟩
        ⟨"A001", none, none⟩ 5).1 "A001" = 2 := rfl
    rw [hev] at h2
    omega

/-- Witness for amended C2 at the empty ledger and concrete operations. -/
theorem coordinator_preserves_at_most_one_open_witness :
    AtMostOneOpen (⟨[], none, 0⟩ : DB) ∧
    (AtMostOneOpen (handle_vehicle_entry ⟨[], none, 0⟩ "A001" "img" 5 true true).1 ∧
    AtMostOneOpen (handle_vehicle_exit ⟨[], none, 0⟩ "A001" "img" 5).1 ∧
    AtMostOneOpen (process_payment ⟨[], none, 0⟩ 0 50 (fun _ => true)).1) :=
  ⟨fun _ => Nat.zero_le 1,
    coordinator_preserves_at_most_one_open ⟨[], none, 0⟩ "A001" "img" 5 true true
      0 50 (fun _ => true) (fun _ => Nat.zero_le 1)⟩

/-- Claim C3: on exit detection for a plate with an open entry `ve` (in a
ledger with unique ids, as the autoincrement primary key guarantees), the
entry gets its exit timestamp, exit image and fee; if the fee is 0 the paid
flag becomes true and the exit barrier is opened then closed; if the fee is
positive the payment-intent QR embedding the entry id, plate and amount is
persisted on the entry, the paid flag stays false, and no barrier command is
issued. -/
theorem handle_vehicle_exit_exit_flow (db : DB) (plate img : String) (now : ℤ)
    (ve : VehicleEntry)
    (hnodup : (db.entries.map VehicleEntry.id).Nodup)
    (hfind : get_vehicle_entry_by_plate db plate true = some ve)
    (hpaid : ve.paid = false) :
    (calculate_parking_fee (some ve.entry_time) (some now) (exit_settings db).2 = 0 →
      (handle_vehicle_exit db plate img now).2 =
        [BarrierCmd.openExit, BarrierCmd.closeExit] ∧
      get_vehicle_entry (handle_vehicle_exit db plate img now).1 ve.id =
        some { ve with
          exit_time := some now
          exit_image := some img
          parking_fee := 0
          paid := true }) ∧
    (0 < calculate_parking_fee (some ve.entry_time) (some now) (exit_settings db).2 →
      (handle_vehicle_exit db plate img now).2 = [] ∧
      get_vehicle_entry (handle_vehicle_exit db plate img now).1 ve.id =
        some { ve with
          exit_time := some now
          exit_image := some img
          parking_fee :=
            calculate_parking_fee (some ve.entry_time) (some now) (exit_settings db).2
          paid := false
          payment_qr := some (generate_qr_code
            { ve with
              exit_time := some now
              exit_image := some img
              parking_fee :=
                calculate_parking_fee (some ve.entry_time) (some now)
                  (exit_settings db).2
              paid := false }
            (calculate_parking_fee (some ve.entry_time) (some now)
              (exit_settings db).2)) }) := by
  have hmem := (get_open_some_mem db plate ve hfind).1
  have hfd : db.entries.find? (fun e => e.id == ve.id) = some ve :=
    find?_id_of_nodup db.entries ve hnodup hmem
  have hD1e : (exit_settings db).1.entries = db.entries := exit_settings_entries db
  have hupd : update_vehicle_entry (exit_settings db).1 ve.id
      (exit_update img now (calculate_parking_fee (some ve.entry_time) (some now)
        (exit_settings db).2)) =
      ({ (exit_settings db).1 with
          entries := update_first (fun x => x.id == ve.id)
            (apply_entry_update (exit_update img now (calculate_parking_fee
              (some ve.entry_time) (some now) (exit_settings db).2)))
            db.entries },
        some (apply_entry_update (exit_update img now (calculate_parking_fee
          (some ve.entry_time) (some now) (exit_settings db).2)) ve)) := by
    unfold update_vehicle_entry
    rw [hD1e, hfd]
  have hfd2 : (update_first (fun x => x.id == ve.id)
      (apply_entry_update (exit_update img now (calculate_parking_fee
        (some ve.entry_time) (some now) (exit_settings db).2)))
      db.entries).find? (fun x => x.id == ve.id) =
      some (apply_entry_update (exit_update img now (calculate_parking_fee
        (some ve.entry_time) (some now) (exit_settings db).2)) ve) := by
    rw [find?_update_first (fun x => x.id == ve.id)
      (apply_entry_update (exit_update img now (calculate_parking_fee
        (some ve.entry_time) (some now) (exit_settings db).2)))
      (fun e => rfl) db.entries, hfd]
    rfl
  constructor
  · intro h0
    have hrun : handle_vehicle_exit db plate img now =
        ((mark_as_paid
          { (exit_settings db).1 with
            entries := update_first (fun x => x.id == ve.id)
              (apply_entry_update (exit_update img now (calculate_parking_fee
                (some ve.entry_time) (some now) (exit_settings db).2)))
              db.entries }
          ve.id).1,
        [BarrierCmd.openExit, BarrierCmd.closeExit]) := by
      unfold handle_vehicle_exit
      rw [hfind]
      dsimp only
      rw [hupd]
      dsimp only
      rw [if_neg (by rw [h0]; exact lt_irrefl 0)]
    rw [hrun]
    refine ⟨rfl, ?_⟩
    unfold mark_as_paid
    dsimp only
    rw [hfd2]
    unfold get_vehicle_entry
    dsimp only
    rw [find?_update_first (fun x => x.id == ve.id)
      (fun x => { x with paid := true }) (fun e => rfl) _, hfd2]
    rw [h0]
    simp [apply_entry_update, exit_update]
  · intro hpos
    have hrun : handle_vehicle_exit db plate img now =
        ({ { (exit_settings db).1 with
            entries := update_first (fun x => x.id == ve.id)
              (apply_entry_update (exit_update img now (calculate_parking_fee
                (some ve.entry_time) (some now) (exit_settings db).2)))
              db.entries } with
          entries := update_first
            (fun x => x.id == (apply_entry_update (exit_update img now
              (calculate_parking_fee (some ve.entry_time) (some now)
                (exit_settings db).2)) ve).id)
            (fun x => { x with
              payment_qr := some (generate_qr_code
                (apply_entry_update (exit_update img now (calculate_parking_fee
                  (some ve.entry_time) (some now) (exit_settings db).2)) ve)
                (calculate_parking_fee (some ve.entry_time) (some now)
                  (exit_settings db).2)) })
            (update_first (fun x => x.id == ve.id)
              (apply_entry_update (exit_update img now (calculate_parking_fee
                (some ve.entry_time) (some now) (exit_settings db).2)))
              db.entries) },
        []) := by
      unfold handle_vehicle_exit
      rw [hfind]
      dsimp only
      rw [hupd]
      dsimp only
      rw [if_pos hpos]
    rw [hrun]
    refine ⟨rfl, ?_⟩
    unfold get_vehicle_entry
    dsimp only
    rw [show (fun x : VehicleEntry => x.id ==
        (apply_entry_update (exit_update img now (calculate_parking_fee
          (some ve.entry_time) (some now) (exit_settings db).2)) ve).id) =
      (fun x : VehicleEntry => x.id == ve.id) from rfl]
    rw [find?_update_first (fun x => x.id == ve.id)
      (fun x => { x with
        payment_qr := some (generate_qr_code
          (apply_entry_update (exit_update img now (calculate_parking_fee
            (some ve.entry_time) (some now) (exit_settings db).2)) ve)
          (calculate_parking_fee (some ve.entry_time) (some now)
            (exit_settings db).2)) })
      (fun e => rfl) _, hfd2]
    simp [apply_entry_update, exit_update, hpaid]

/-- Witness for C3 covering the free-exit branch: one open entry for plate
`A`, default pricing present, exit after 5 minutes — fee 0, barrier cycled,
entry marked paid. -/
theorem handle_vehicle_exit_exit_flow_witness :
    (((⟨[⟨0, none, "A", 0, none, none, none, 0, false, none⟩],
        some ⟨50, 30, 15⟩, 1⟩ : DB)).entries.map VehicleEntry.id).Nodup ∧
    get_vehicle_entry_by_plate
      ⟨[⟨0, none, "A", 0, none, none, none, 0, false, none⟩], some ⟨50, 30, 15⟩, 1⟩
      "A" true = some ⟨0, none, "A", 0, none, none, none, 0, false, none⟩ ∧
    (⟨0, none, "A", 0, none, none, none, 0, false, none⟩ : VehicleEntry).paid
      = false ∧
    calculate_parking_fee
      (some (⟨0, none, "A", 0, none, none, none, 0, false, none⟩ :
        VehicleEntry).entry_time)
      (some 300)
      (exit_settings ⟨[⟨0, none, "A", 0, none, none, none, 0, false, none⟩],
        some ⟨50, 30, 15⟩, 1⟩).2 = 0 ∧
    ((handle_vehicle_exit
        ⟨[⟨0, none, "A", 0, none, none, none, 0, false, none⟩],
          some ⟨50, 30, 15⟩, 1⟩ "A" "x" 300).2 =
      [BarrierCmd.openExit, BarrierCmd.closeExit] ∧
    get_vehicle_entry (handle_vehicle_exit
        ⟨[⟨0, none, "A", 0, none, none, none, 0, false, none⟩],
          some ⟨50, 30, 15⟩, 1⟩ "A" "x" 300).1
      (⟨0, none, "A", 0, none, none, none, 0, false, none⟩ : VehicleEntry).id =
      some { (⟨0, none, "A", 0, none, none, none, 0, false, none⟩ : VehicleEntry)
        with
        exit_time := some 300
        exit_image := some "x"
        parking_fee := 0
        paid := true }) := by
  refine ⟨by simp, rfl, rfl, ?_, ?_⟩
  · norm_num [calculate_parking_fee, exit_settings, get_parking_settings]
  · exact (handle_vehicle_exit_exit_flow
      ⟨[⟨0, none, "A", 0, none, none, none, 0, false, none⟩],
        some ⟨50, 30, 15⟩, 1⟩ "A" "x" 300
      ⟨0, none, "A", 0, none, none, none, 0, false, none⟩
      (by simp) rfl rfl).1
      (by norm_num [calculate_parking_fee, exit_settings, get_parking_settings])

end SmartParking
